import Mathlib

/-!
# Verification of the `hbconv` bank-export converter

Shallow embedding of the Rust sources of `hbconv` (src/homebank.rs,
src/inputs/postbank.rs, src/inputs/sparda.rs, src/main.rs) and proofs
about the embedded definitions.

Modelling conventions:
* An input byte stream is modelled at line granularity: a `List String`
  of the stream's lines (the pieces obtained by splitting the stream on
  the byte `\n`; `BufRead::read_until(b'\n')` consumes exactly one such
  piece per call). For the Sparda adapter, whose input is not UTF-8,
  a line is a `List Nat` of byte values (0-255) decoded through
  Windows-1252.
* Rust `Result<T, E>` is `Except String T`; the error strings echo the
  `wrap_err` messages of the source.
* Machine integers (`u8`, the cent values inside the money types) are
  `Nat`/`Int`; none of the claims approaches an overflow boundary.
* The `csv` crate is configured identically in both adapters and in the
  writer: delimiter `;`, no headers, quoting disabled on read, flexible
  record lengths.  With quoting disabled a CSV record is exactly a line
  split on `;`, and the csv reader emits no record for a completely
  empty line.  On write the default quoting style quotes a field iff it
  contains the delimiter, a quote or a line break, doubling inner
  quotes.
-/

/-- Split a character list on a separator character, `String.splitOn`
semantics: `[] ↦ [[]]`, separators delimit (possibly empty) pieces.
Structural recursion so that concrete inputs reduce in the kernel. -/
def splitOnChar (sep : Char) : List Char → List (List Char)
  | [] => [[]]
  | c :: cs =>
    match splitOnChar sep cs, decide (c = sep) with
    | r, true => [] :: r
    | h :: t, false => (c :: h) :: t
    | [], false => [[c]]

/-- Fields of one CSV line under the adapters' reader configuration
(delimiter `;`, quoting disabled): the line split on `;`. -/
def splitFields (line : String) : List String :=
  (splitOnChar ';' line.toList).map List.asString

/-- All characters are decimal digits and there is at least one. -/
def allDigits (cs : List Char) : Bool :=
  decide (cs ≠ []) && cs.all Char.isDigit

/-- Numeric value of a digit list (most significant first). -/
def digitsToNat (cs : List Char) : Nat :=
  cs.foldl (fun a c => a * 10 + (c.toNat - 48)) 0

/-- Gregorian leap year, as validated by `chrono::NaiveDate`. -/
def isLeap (y : Nat) : Bool :=
  (y % 4 == 0 && y % 100 != 0) || y % 400 == 0

/-- Number of days of month `m` of year `y`. -/
def daysInMonth (y m : Nat) : Nat :=
  if m = 2 then (if isLeap y then 29 else 28)
  else if m = 4 ∨ m = 6 ∨ m = 9 ∨ m = 11 then 30
  else 31

/-- `chrono::NaiveDate`: a calendar date. The parse functions below only
construct valid dates, mirroring `NaiveDate`'s invariant. -/
structure Date where
  year : Nat
  month : Nat
  day : Nat
deriving DecidableEq, Repr

/-- Validity of a `(y, m, d)` triple as a calendar date. -/
def validDate (y m d : Nat) : Bool :=
  1 ≤ m && m ≤ 12 && 1 ≤ d && d ≤ daysInMonth y m

/-- `NaiveDate::parse_from_str(s, "%d.%m.%Y")` (Postbank dates such as
`7.3.2024`): three dot-separated numeric components, day and month one
or two digits, year up to four digits, full consumption, calendar
validity. -/
def parseDMY (s : String) : Except String Date :=
  match splitOnChar '.' s.toList with
  | [d, m, y] =>
    if allDigits d && d.length ≤ 2 && allDigits m && m.length ≤ 2 &&
       allDigits y && y.length ≤ 4 &&
       validDate (digitsToNat y) (digitsToNat m) (digitsToNat d) then
      .ok ⟨digitsToNat y, digitsToNat m, digitsToNat d⟩
    else .error "input contains invalid characters"
  | _ => .error "input contains invalid characters"

/-- `NaiveDate::parse_from_str(s, "%Y-%m-%d")` (Sparda dates such as
`2015-02-04`). -/
def parseYMD (s : String) : Except String Date :=
  match splitOnChar '-' s.toList with
  | [y, m, d] =>
    if allDigits y && y.length ≤ 4 && allDigits m && m.length ≤ 2 &&
       allDigits d && d.length ≤ 2 &&
       validDate (digitsToNat y) (digitsToNat m) (digitsToNat d) then
      .ok ⟨digitsToNat y, digitsToNat m, digitsToNat d⟩
    else .error "input contains invalid characters"
  | _ => .error "input contains invalid characters"

/-- Left-pad a numeral to two digits. -/
def pad2 (n : Nat) : String :=
  if n < 10 then "0" ++ Nat.repr n else Nat.repr n

/-- Left-pad a numeral to four digits (`chrono`'s `%Y`). -/
def pad4 (n : Nat) : String :=
  if n < 10 then "000" ++ Nat.repr n
  else if n < 100 then "00" ++ Nat.repr n
  else if n < 1000 then "0" ++ Nat.repr n
  else Nat.repr n

/-- `date.format("%Y-%m-%d").to_string()` of src/homebank.rs. -/
def formatYMD (d : Date) : String :=
  pad4 d.year ++ "-" ++ pad2 d.month ++ "-" ++ pad2 d.day

/-- A monetary value: an exact cent count together with its ISO
currency code.  Both money crates used by the sources keep a signed
decimal value scaled to two fraction digits for EUR; the crates carry
the value, we carry cents. -/
structure Money where
  cents : Int
  code : String
deriving DecidableEq, Repr

/-- Cent value of a fraction-digit list: the first two digits, rounded
on the third (both crates round when scaling to the currency's two
exponent digits; the exact midpoint mode never matters below two
fraction digits, which is all any claim exercises). -/
def fracCents (ds : List Char) : Nat :=
  match ds with
  | [] => 0
  | [d] => (d.toNat - 48) * 10
  | d1 :: d2 :: rest =>
    let base := (d1.toNat - 48) * 10 + (d2.toNat - 48)
    match rest with
    | [] => base
    | r :: _ => if 53 ≤ r.toNat then base + 1 else base

/-- One optional leading sign, then digit characters with at most one
`.`, at least one digit: the strings accepted by Rust's
`f64::from_str` once every character is a digit, `-` or `.` (which is
all `currency_rs` can feed it after stripping).  Returns the cent
value. -/
def parseDotDecimal (cs : List Char) : Option Int :=
  let (neg, body) :=
    match cs with
    | '-' :: rest => (true, rest)
    | _ => (false, cs)
  let intPart := body.takeWhile (fun c => decide (c ≠ '.'))
  let rest := body.drop intPart.length
  if !intPart.all Char.isDigit then none
  else
    match rest with
    | [] =>
      if intPart = [] then none
      else some ((if neg then -1 else 1) * (digitsToNat intPart * 100))
    | '.' :: frac =>
      if frac.all Char.isDigit && (intPart ≠ [] ∨ frac ≠ []) then
        some ((if neg then -1 else 1) *
          (digitsToNat intPart * 100 + fracCents frac))
      else none
    | _ => none

/-- The `currency.js` paren rule ported by `currency_rs`: the first
`(` up to the last `)` is replaced by `-` followed by the enclosed
text (regex `\((.*)\)` → `-$1`). -/
def parenNegate (cs : List Char) : List Char :=
  let pre := cs.takeWhile (fun c => decide (c ≠ '('))
  if pre.length = cs.length then cs
  else
    let rest := cs.drop (pre.length + 1)
    let tail := (rest.reverse.takeWhile (fun c => decide (c ≠ ')'))).reverse
    if tail.length = rest.length then cs
    else pre ++ '-' :: (rest.take (rest.length - tail.length - 1)) ++ tail

/-- `currency_rs::Currency::new_string(s, opts)` with the Postbank
options (`decimal = ","`, `separator = ""`, negative pattern `-#`) and
the default `error_on_invalid = false`: apply the paren-negation rule,
strip every character that is not a digit, `-` or `,`, turn `,` into
`.`, parse as a float scaled to cents; an unparseable remainder falls
back to value 0 instead of an error, so the function is total. -/
def currencyNewString (s : String) : Money :=
  let kept := (parenNegate s.toList).filter
    (fun c => c.isDigit || c = '-' || c = ',')
  let dotted := kept.map (fun c => if c = ',' then '.' else c)
  match parseDotDecimal dotted with
  | some v => ⟨v, "EUR"⟩
  | none => ⟨0, "EUR"⟩

/-- `rusty_money::Money::from_str(s, EUR)` (locale `EurEur`: exponent
separator `,`, digit separator `.`): split on `,` into at most two
parts; the integer part, with every `.` removed, must be an optionally
signed numeral; the fraction part, when present, a bare numeral; more
than two parts is an error.  Returns cents. -/
def moneyFromStr (s : String) : Except String Money :=
  match splitOnChar ',' s.toList with
  | [p0] =>
    match signedDigits (p0.filter (fun c => decide (c ≠ '.'))) with
    | some (neg, n) => .ok ⟨(if neg then -1 else 1) * (n * 100), "EUR"⟩
    | none => .error "Invalid Amount"
  | [p0, p1] =>
    match signedDigits (p0.filter (fun c => decide (c ≠ '.'))) with
    | some (neg, n) =>
      if allDigits p1 then
        .ok ⟨(if neg then -1 else 1) * (n * 100 + fracCents p1), "EUR"⟩
      else .error "Invalid Amount"
    | none => .error "Invalid Amount"
  | _ => .error "Invalid Amount"
where
  /-- `i32::from_str`: optional sign then at least one digit. -/
  signedDigits (cs : List Char) : Option (Bool × Nat) :=
    match cs with
    | '-' :: rest => if allDigits rest then some (true, digitsToNat rest) else none
    | '+' :: rest => if allDigits rest then some (false, digitsToNat rest) else none
    | _ => if allDigits cs then some (false, digitsToNat cs) else none

/-- Modelled from the spec: the text rendering of the monetary value as
written into the output field (`value.amount.to_string()` in
src/homebank.rs).  The rendering itself lives in the third-party money
crate, not under src/; the spec fixes the validated behaviour — the
locale-aware rendering with a decimal comma for EUR and no currency
symbol or code — which is exactly what the repository's own test
`test_basic_deser` asserts (`-40,00`). -/
def moneyToString (m : Money) : String :=
  let n := m.cents.natAbs
  (if m.cents < 0 then "-" else "") ++ Nat.repr (n / 100) ++ "," ++ pad2 (n % 100)

/-- The `Payment` enum of src/homebank.rs. -/
inductive Payment where
  | None
  | CreditCard
  | Check
  | Cash
  | BankTransfer
  | InternalTransfer
  | DebitCard
  | StandingOrder
  | ElectronicPayment
  | Deposit
  | FinancialInstitutionFee
  | DirectDebit
deriving DecidableEq, Repr

/-- `value.payment as u8`: the discriminant of the `#[repr(u8)]`
enum. -/
def paymentCode : Payment → Nat
  | .None => 0
  | .CreditCard => 1
  | .Check => 2
  | .Cash => 3
  | .BankTransfer => 4
  | .InternalTransfer => 5
  | .DebitCard => 6
  | .StandingOrder => 7
  | .ElectronicPayment => 8
  | .Deposit => 9
  | .FinancialInstitutionFee => 10
  | .DirectDebit => 11

/-- The canonical `Record` of src/homebank.rs. -/
structure Record where
  date : Date
  payment : Payment
  info : String
  payee : String
  memo : String
  amount : Money
  category : String
  tags : List String
deriving DecidableEq, Repr

/-- The serialization intermediate `RecordIR` of src/homebank.rs: all
fields already turned to text except the `u8` payment code. -/
structure RecordIR where
  date : String
  payment : Nat
  info : String
  payee : String
  memo : String
  amount : String
  category : String
  tags : String
deriving DecidableEq, Repr

/-- `Vec::join(" ")`. -/
def joinSpace : List String → String
  | [] => ""
  | [t] => t
  | t :: ts => t ++ " " ++ joinSpace ts

/-- `impl From<Record> for RecordIR` of src/homebank.rs. -/
def recordIRofRecord (value : Record) : RecordIR :=
  { date := formatYMD value.date
    payment := paymentCode value.payment
    info := value.info
    payee := value.payee
    memo := value.memo
    amount := moneyToString value.amount
    category := value.category
    tags := joinSpace value.tags }

/-- serde serializes `RecordIR`'s fields in declaration order; the csv
writer receives them as one record. -/
def recordIRFields (ir : RecordIR) : List String :=
  [ir.date, Nat.repr ir.payment, ir.info, ir.payee, ir.memo,
   ir.amount, ir.category, ir.tags]

/-- The csv writer's default quoting predicate: a field is quoted iff
it contains the delimiter `;`, a quote or a line break. -/
def needsQuote (s : String) : Bool :=
  s.toList.any (fun c => c = ';' || c = '\"' || c = '\n' || c = '\r')

/-- One written csv field: quoted with doubled inner quotes when
necessary, verbatim otherwise. -/
def csvField (s : String) : String :=
  if needsQuote s then
    "\"" ++ (s.toList.foldr
      (fun c acc => (if c = '\"' then "\"\"" else String.singleton c) ++ acc)
      "") ++ "\""
  else s

/-- Join written fields with the `;` delimiter. -/
def joinFields : List String → String
  | [] => ""
  | [f] => f
  | f :: fs => f ++ ";" ++ joinFields fs

/-- `Record::write` through `Writer::serialize`: the one line the csv
writer (delimiter `;`, no headers) appends for a record, terminator
included. -/
def recordLine (r : Record) : String :=
  joinFields ((recordIRFields (recordIRofRecord r)).map csvField) ++ "\n"

/-- The output stream during the write loop of src/main.rs: `acc` is
the bytes already on the stream, each record appends its line. -/
def writeAll (rs : List Record) (acc : String) : String :=
  match rs with
  | [] => acc
  | r :: rest => writeAll rest (acc ++ recordLine r)

/-- The `PostbankIR` struct of src/inputs/postbank.rs: the raw text of
the 18 columns of one Postbank row (Rust prefixes the unused columns
with `_`; the names are kept without that marker). -/
structure PostbankIR where
  buchungstag : String
  wert : String
  umsatzart : String
  auftraggeber : String
  verwendungszweck : String
  iban : String
  bic : String
  kundenreferenz : String
  mandatsreferenz : String
  glaeubiger_id : String
  fremde_gebuehren : String
  betrag : String
  abweichender_empfaenger : String
  count_auftraege : String
  count_schecks : String
  soll : String
  haben : String
  waehrung : String
deriving DecidableEq, Repr

/-- serde deserialization of one flexible csv record into
`PostbankIR`: the first 18 fields fill the struct positionally, extra
trailing fields are ignored, fewer than 18 fields is an
`UnexpectedEndOfRow` error. -/
def postbankIRofFields : List String → Except String PostbankIR
  | f0 :: f1 :: f2 :: f3 :: f4 :: f5 :: f6 :: f7 :: f8 :: f9 :: f10 ::
    f11 :: f12 :: f13 :: f14 :: f15 :: f16 :: f17 :: _ =>
    .ok ⟨f0, f1, f2, f3, f4, f5, f6, f7, f8, f9, f10, f11, f12, f13,
         f14, f15, f16, f17⟩
  | _ => .error "Failed deserializing record: unexpected end of row"

/-- The parsed `Postbank` struct of src/inputs/postbank.rs. -/
structure Postbank where
  buchungstag : Date
  wert : Date
  umsatzart : String
  auftraggeber : String
  verwendungszweck : String
  iban : String
  bic : String
  kundenreferenz : String
  mandatsreferenz : String
  glaeubiger_id : String
  fremde_gebuehren : String
  betrag : Money
  abweichender_empfaenger : String
  count_auftraege : String
  count_schecks : String
  soll : String
  haben : String
  waehrung : Money
deriving DecidableEq, Repr

/-- `impl TryFrom<PostbankIR> for Postbank`: parse both date columns
with `%d.%m.%Y`; parse `betrag` and `währung` through
`currency_rs::Currency::new_string`, which with these options never
fails (see `currencyNewString`); pipe every other column through. -/
def postbankOfIR (value : PostbankIR) : Except String Postbank :=
  match parseDMY value.buchungstag with
  | .error e => .error ("Failed converting buchungstag into datetime: " ++ e)
  | .ok bt =>
    match parseDMY value.wert with
    | .error e => .error ("Failed converting wert into datetime: " ++ e)
    | .ok w =>
      .ok ⟨bt, w, value.umsatzart, value.auftraggeber,
           value.verwendungszweck, value.iban, value.bic,
           value.kundenreferenz, value.mandatsreferenz,
           value.glaeubiger_id, value.fremde_gebuehren,
           currencyNewString value.betrag, value.abweichender_empfaenger,
           value.count_auftraege, value.count_schecks, value.soll,
           value.haben, currencyNewString value.waehrung⟩

/-- `impl From<Postbank> for Record` of src/inputs/postbank.rs. -/
def recordOfPostbank (val : Postbank) : Record :=
  { date := val.buchungstag
    payment := .ElectronicPayment
    info := val.kundenreferenz
    payee := val.auftraggeber
    memo := val.verwendungszweck
    amount := val.betrag
    category := ""
    tags := [] }

/-- One step of `PostbankIter::next`: csv-deserialize the line into
`PostbankIR`, then `Postbank::try_from`. -/
def postbankParseLine (line : String) : Except String Postbank :=
  match postbankIRofFields (splitFields line) with
  | .error e => .error e
  | .ok ir => postbankOfIR ir

/-- One `read_until(b'\n')` call at line granularity: consume one line
of the stream (no-op at end of input). -/
def readLine : List String → List String
  | [] => []
  | _ :: rest => rest

/-- The skip loop `for _i in 0..=7 { read_until(b'\n') }` of
`PostbankIter::new`, with its iteration count explicit. -/
def readLines : Nat → List String → List String
  | 0, ls => ls
  | n + 1, ls => readLines n (readLine ls)

/-- The data rows reaching `PostbankIter`'s csv reader:
`PostbankIter::new` runs the skip loop (8 iterations, `0..=7`), then
the csv reader turns each remaining non-empty line into one record
(the csv reader emits nothing for an empty line). -/
def postbankDataRows (input : List String) : List String :=
  (readLines 8 input).filter (fun l => decide (l ≠ ""))

/-- The full `PostbankIter` sequence over an input stream given as its
list of lines: each data row deserialized and converted, errors yielded
in place. -/
def postbankRows (input : List String) : List (Except String Postbank) :=
  (postbankDataRows input).map postbankParseLine

/-- The Postbank sequence at canonical-record granularity: each
successfully parsed row followed by `Record::from`. -/
def postbankRecords (input : List String) : List (Except String Record) :=
  (postbankRows input).map (fun r =>
    match r with
    | .error e => .error e
    | .ok pb => .ok (recordOfPostbank pb))

/-- The `SpardaIR` struct of src/inputs/sparda.rs: raw text of the 7
columns of one Sparda row. -/
structure SpardaIR where
  buchungstag : String
  wertstellungstag : String
  gegeniban : String
  name_gegenkonto : String
  verwendungszweck : String
  umsatz : String
  waehrung : String
deriving DecidableEq, Repr

/-- serde deserialization of one flexible csv record into `SpardaIR`;
same positional policy as for `PostbankIR`. -/
def spardaIRofFields : List String → Except String SpardaIR
  | f0 :: f1 :: f2 :: f3 :: f4 :: f5 :: f6 :: _ =>
    .ok ⟨f0, f1, f2, f3, f4, f5, f6⟩
  | _ => .error "Failed deserializing record: unexpected end of row"

/-- The parsed `Sparda` struct of src/inputs/sparda.rs. -/
structure Sparda where
  buchungstag : Date
  wertstellungstag : Date
  gegeniban : String
  name_gegenkonto : String
  verwendungszweck : String
  umsatz : Money
  waehrung : String
deriving DecidableEq, Repr

/-- `str::trim_matches('"')`: remove every leading and trailing quote
character. -/
def trimQuotes (s : String) : String :=
  (((s.toList.dropWhile (fun c => decide (c = '\"'))).reverse.dropWhile
      (fun c => decide (c = '\"'))).reverse).asString

/-- `impl TryFrom<SpardaIR> for Sparda`: both date columns with
`%Y-%m-%d`, the `umsatz` column quote-trimmed and parsed by
`rusty_money::Money::from_str` with EUR. -/
def spardaOfIR (value : SpardaIR) : Except String Sparda :=
  match parseYMD value.buchungstag with
  | .error e => .error ("Failed converting buchungstag into datetime: " ++ e)
  | .ok bt =>
    match parseYMD value.wertstellungstag with
    | .error e => .error ("Failed converting buchungstag into datetime: " ++ e)
    | .ok wt =>
      match moneyFromStr (trimQuotes value.umsatz) with
      | .error e => .error ("Failed converting currency: " ++ e)
      | .ok u =>
        .ok ⟨bt, wt, value.gegeniban, value.name_gegenkonto,
             value.verwendungszweck, u, value.waehrung⟩

/-- `impl From<Sparda> for Record` of src/inputs/sparda.rs. -/
def recordOfSparda (val : Sparda) : Record :=
  { date := val.buchungstag
    payment := .ElectronicPayment
    info := val.gegeniban
    payee := val.name_gegenkonto
    memo := val.verwendungszweck
    amount := val.umsatz
    category := ""
    tags := [] }

/-- The Windows-1252 decode of one byte (`encoding_rs::WINDOWS_1252`,
WHATWG mapping): 0x00-0x7F and 0xA0-0xFF map to the same code point,
0x80-0x9F through the special table (the five unassigned bytes map to
the C1 controls of the same value). Total: every byte decodes, so
Sparda inputs never produce a decoding error. -/
def w1252Char (b : Nat) : Char :=
  if b = 0x80 then '€' else if b = 0x82 then '‚'
  else if b = 0x83 then 'ƒ' else if b = 0x84 then '„'
  else if b = 0x85 then '…' else if b = 0x86 then '†'
  else if b = 0x87 then '‡' else if b = 0x88 then 'ˆ'
  else if b = 0x89 then '‰' else if b = 0x8A then 'Š'
  else if b = 0x8B then '‹' else if b = 0x8C then 'Œ'
  else if b = 0x8E then 'Ž' else if b = 0x91 then '‘'
  else if b = 0x92 then '’' else if b = 0x93 then '“'
  else if b = 0x94 then '”' else if b = 0x95 then '•'
  else if b = 0x96 then '–' else if b = 0x97 then '—'
  else if b = 0x98 then '˜' else if b = 0x99 then '™'
  else if b = 0x9A then 'š' else if b = 0x9B then '›'
  else if b = 0x9C then 'œ' else if b = 0x9E then 'ž'
  else if b = 0x9F then 'Ÿ' else Char.ofNat b

/-- Windows-1252 decode of one line of bytes. -/
def decodeW1252 (bs : List Nat) : String :=
  (bs.map w1252Char).asString

/-- One step of `TeoIter`'s underlying csv deserializer: decoded line
to `SpardaIR`. -/
def spardaIRline (line : String) : Except String SpardaIR :=
  spardaIRofFields (splitFields line)

/-- The per-item tail of `TeoIter::next`: `Sparda::try_from` on a
successful deserialization, then `Record::from`; errors of either
stage pass through as the item. -/
def spardaStep (res : Except String SpardaIR) : Except String Record :=
  match res with
  | .error e => .error e
  | .ok ir =>
    match spardaOfIR ir with
    | .error e => .error e
    | .ok sp => .ok (recordOfSparda sp)

/-- The `SpardaIR` deserialization results underlying `TeoIter`:
decode every byte from Windows-1252, let the csv reader (delimiter
`;`, no quoting, flexible) turn each non-empty decoded line into a
`SpardaIR` deserialization result. -/
def spardaIRresults (input : List (List Nat)) : List (Except String SpardaIR) :=
  ((input.map decodeW1252).filter (fun l => decide (l ≠ ""))).map spardaIRline

/-- The full `TeoIter` sequence over an input stream given as its list
of byte lines: drop the first 10 deserialization results
(`Iterator::skip(10)`) and run the per-item conversion on the rest.
No trailing element is dropped. -/
def spardaRecords (input : List (List Nat)) : List (Except String Record) :=
  ((spardaIRresults input).drop 10).map spardaStep

deriving instance DecidableEq for Except

/-- `Result::is_ok`. -/
def isOkE {α : Type} : Except String α → Bool
  | .ok _ => true
  | .error _ => false

/-- The Postbank data line of the validated scenario. -/
def postbankDataLine : String :=
  "7.3.2024;7.3.2024;SEPA Lastschrift;Woopsie;Doopsie;DE123;;ABCD;EFG;DE123;;-25,88;;;;-25,88;;EUR"

/-- The scenario input exactly as the claim states it: 7 boilerplate
lines, then the data line. -/
def c1SpecInput : List String :=
  List.replicate 7 "boilerplate" ++ [postbankDataLine]

/-- The scenario input as the code's own test has it: 8 boilerplate
lines, then the data line. -/
def c1CodeInput : List String :=
  List.replicate 8 "boilerplate" ++ [postbankDataLine]

/-- The canonical record the scenario data line parses to. -/
def c1Expected : Record :=
  { date := ⟨2024, 3, 7⟩
    payment := .ElectronicPayment
    info := "ABCD"
    payee := "Woopsie"
    memo := "Doopsie"
    amount := ⟨-2588, "EUR"⟩
    category := ""
    tags := [] }

/-- Modelled from the spec's words for comparison with the code (claim
C2): a Postbank sequence that discards exactly the first 7 lines and
the final line before row parsing, sharing every per-row stage with
the code's pipeline. -/
def postbankRecordsSpecClaim (input : List String) : List (Except String Record) :=
  ((((input.drop 7).dropLast).filter (fun l => decide (l ≠ ""))).map
      postbankParseLine).map (fun r =>
    match r with
    | .error e => .error e
    | .ok pb => .ok (recordOfPostbank pb))

/-- A data line like the scenario one but with payee `Aaa`. -/
def postbankDataLineA : String :=
  "7.3.2024;7.3.2024;SEPA Lastschrift;Aaa;Doopsie;DE123;;ABCD;EFG;DE123;;-25,88;;;;-25,88;;EUR"

/-- A data line like the scenario one but with payee `Bbb`. -/
def postbankDataLineB : String :=
  "7.3.2024;7.3.2024;SEPA Lastschrift;Bbb;Doopsie;DE123;;ABCD;EFG;DE123;;-25,88;;;;-25,88;;EUR"

/-- 7 junk lines followed by two valid data lines: an input on which
the claimed skip behaviour and the implemented one visibly differ. -/
def c2Demo : List String :=
  List.replicate 7 "junk" ++ [postbankDataLineA, postbankDataLineB]

/-- The scenario data line with its last column missing: 17 fields. -/
def c5MissingLine : String :=
  "7.3.2024;7.3.2024;SEPA Lastschrift;Woopsie;Doopsie;DE123;;ABCD;EFG;DE123;;-25,88;;;;-25,88;"

/-- The scenario data line with one extra trailing column: 19 fields. -/
def c5ExtraLine : String := postbankDataLine ++ ";EXTRA"

/-- A fully valid `PostbankIR` except that the unused `währung` column
holds an arbitrary string. -/
def c10IR (w : String) : PostbankIR :=
  { buchungstag := "7.3.2024"
    wert := "7.3.2024"
    umsatzart := "SEPA Lastschrift"
    auftraggeber := "Woopsie"
    verwendungszweck := "Doopsie"
    iban := "DE123"
    bic := ""
    kundenreferenz := "ABCD"
    mandatsreferenz := "EFG"
    glaeubiger_id := "DE123"
    fremde_gebuehren := ""
    betrag := "-25,88"
    abweichender_empfaenger := ""
    count_auftraege := ""
    count_schecks := ""
    soll := "-25,88"
    haben := ""
    waehrung := w }

/-- The scenario data line with the unused `währung` column replaced
by text that is not a monetary value. -/
def c10GarbageLine : String :=
  "7.3.2024;7.3.2024;SEPA Lastschrift;Woopsie;Doopsie;DE123;;ABCD;EFG;DE123;;-25,88;;;;-25,88;;n/a %"

/-- A `PostbankIR` whose unused `wert` column is not a date. -/
def c10BadWertIR : PostbankIR :=
  { c10IR "EUR" with wert := "NOTADATE" }

/-- Byte values of an ASCII string (all < 0x80, so Windows-1252
decoding is the identity on them). -/
def asciiBytes (s : String) : List Nat :=
  s.toList.map Char.toNat

/-- A valid Sparda data line, as bytes. -/
def spardaDemoLine : List Nat :=
  asciiBytes "2015-02-04;2015-02-04;DE99;Alice;Rent;-45,00;EUR"

/-- Ten non-empty boilerplate byte lines. -/
def spardaDemoPre : List (List Nat) :=
  List.replicate 10 (asciiBytes "boilerplate")

/-- A sample record with an empty tag sequence. -/
def c6SampleRecord : Record :=
  { date := ⟨2020, 1, 2⟩
    payment := .DirectDebit
    info := "i"
    payee := "p"
    memo := "m"
    amount := ⟨150, "EUR"⟩
    category := "c"
    tags := [] }

/-- The skip loop consumes exactly its iteration count in lines. -/
theorem readLines_eq_drop (n : Nat) (ls : List String) :
    readLines n ls = ls.drop n := by
  induction n generalizing ls with
  | zero => rfl
  | succ n ih =>
    cases ls with
    | nil => simp [readLines, readLine, ih]
    | cons a t => simp [readLines, readLine, ih]

/-- C1, counterexample: on the input exactly as claimed — 7 boilerplate
lines followed by the single data line — the adapter does not yield
exactly one record (its 8-line head skip consumes the data line too,
so it yields none). -/
theorem c1_counterexample : ¬ (postbankRecords c1SpecInput).length = 1 := by
  decide

/-- C1 (amended): given 8 boilerplate lines followed by the single data
line `7.3.2024;…;EUR`, the Postbank adapter yields exactly one
successfully parsed record, whose canonical form has date 2024-03-07,
payee `Woopsie`, memo `Doopsie` and amount -25.88 EUR. -/
theorem c1_postbank_scenario :
    postbankRecords c1CodeInput = [.ok c1Expected] ∧
    c1Expected.date = ⟨2024, 3, 7⟩ ∧ c1Expected.payee = "Woopsie" ∧
    c1Expected.memo = "Doopsie" ∧ c1Expected.amount = ⟨-2588, "EUR"⟩ :=
  ⟨rfl, rfl, rfl, rfl, rfl⟩

/-- C3: the canonical record with date 2015-02-04, payment method none
(code 0), empty info and payee, memo `Some cash`, amount -40.00 EUR,
category `Bill:Withdrawal of cash` and tags `tag1`, `tag2` is written
as exactly `2015-02-04;0;;;Some cash;-40,00;Bill:Withdrawal of
cash;tag1 tag2` followed by a newline: decimal comma, no currency
symbol or code. -/
theorem c3_canonical_write :
    recordLine { date := ⟨2015, 2, 4⟩, payment := .None, info := "", payee := "",
                 memo := "Some cash", amount := ⟨-4000, "EUR"⟩,
                 category := "Bill:Withdrawal of cash", tags := ["tag1", "tag2"] } =
    "2015-02-04;0;;;Some cash;-40,00;Bill:Withdrawal of cash;tag1 tag2\n" := rfl

/-- C6: every canonical record is written as `;`-delimited fields in
the fixed order date, payment code, info, payee, memo, amount,
category, tags, with no header row (the writer emits nothing but these
lines); the payment method is emitted as its small-integer ordinal,
which lies in 0..11 and is never its name; the tags are joined with a
single space and an empty tag sequence produces an empty field. -/
theorem c6_fixed_output_dialect (r : Record) :
    recordLine r =
      csvField (formatYMD r.date) ++ ";" ++ Nat.repr (paymentCode r.payment) ++ ";" ++
      csvField r.info ++ ";" ++ csvField r.payee ++ ";" ++ csvField r.memo ++ ";" ++
      csvField (moneyToString r.amount) ++ ";" ++ csvField r.category ++ ";" ++
      csvField (joinSpace r.tags) ++ "\n" ∧
    paymentCode r.payment ≤ 11 ∧
    (r.tags = [] → joinSpace r.tags = "") := by
  refine ⟨?_, ?_, ?_⟩
  · have hq : csvField (Nat.repr (paymentCode r.payment)) =
        Nat.repr (paymentCode r.payment) := by
      cases r.payment <;> rfl
    simp [recordLine, recordIRofRecord, recordIRFields, joinFields, hq,
      String.append_assoc]
  · cases r.payment <;> decide
  · intro h
    rw [h]
    rfl

/-- C7: normalization of a parsed Postbank or Sparda row into the
canonical record is a pure total field-to-field mapping that always
sets payment method electronic-payment, empty category and empty tags,
drawing info, payee and memo from the bank-specific reference,
counterparty-name and description columns. -/
theorem c7_normalizer_pure_total (pb : Postbank) (sp : Sparda) :
    recordOfPostbank pb =
      { date := pb.buchungstag, payment := .ElectronicPayment,
        info := pb.kundenreferenz, payee := pb.auftraggeber,
        memo := pb.verwendungszweck, amount := pb.betrag,
        category := "", tags := [] } ∧
    recordOfSparda sp =
      { date := sp.buchungstag, payment := .ElectronicPayment,
        info := sp.gegeniban, payee := sp.name_gegenkonto,
        memo := sp.verwendungszweck, amount := sp.umsatz,
        category := "", tags := [] } :=
  ⟨rfl, rfl⟩

/-- C9: the bytes the writer appends for a sequence of records are a
function of the record values alone — whatever is already on the
stream, the same suffix is appended, so two fresh streams receive
byte-identical output. -/
theorem c9_write_deterministic (rs : List Record) (s : String) :
    writeAll rs s = s ++ writeAll rs "" := by
  induction rs generalizing s with
  | nil => simp [writeAll]
  | cons r rest ih =>
    simp only [writeAll]
    rw [ih (s ++ recordLine r), ih ("" ++ recordLine r)]
    simp [String.append_assoc, String.empty_append]

/-- C2, counterexample: on 7 junk lines followed by two valid data
lines, the sequence the claim describes (discard the first 7 lines and
the final line) differs from the sequence the adapter produces (it
discards the first 8 lines and keeps the final one). -/
theorem c2_counterexample :
    postbankRecords c2Demo ≠ postbankRecordsSpecClaim c2Demo := by
  decide

/-- C2 (amended): the Postbank adapter unconditionally discards
exactly the first 8 lines and nothing at the tail — the output is the
row-parse of every remaining non-empty line, whatever the first 8
lines contain; the Sparda adapter decodes its bytes from Windows-1252
and discards exactly the first 10 csv records (the first 10 lines when
none of them is blank) with no trailing skip. -/
theorem c2_adapter_skips :
    (∀ pre post : List String, pre.length = 8 →
      postbankRows (pre ++ post) =
        (post.filter (fun l => decide (l ≠ ""))).map postbankParseLine) ∧
    (∀ pre post : List (List Nat), pre.length = 10 →
      (∀ l ∈ pre, decodeW1252 l ≠ "") →
      spardaRecords (pre ++ post) =
        (((post.map decodeW1252).filter (fun l => decide (l ≠ ""))).map
          spardaIRline).map spardaStep) ∧
    decodeW1252 [0x80, 0xE4] = "€ä" := by
  refine ⟨?_, ?_, rfl⟩
  · intro pre post h
    simp only [postbankRows, postbankDataRows]
    rw [readLines_eq_drop, ← h, List.drop_left]
  · intro pre post h hnb
    simp only [spardaRecords, spardaIRresults]
    rw [List.map_append, List.filter_append, List.map_append]
    have h1 : (pre.map decodeW1252).filter (fun l => decide (l ≠ "")) =
        pre.map decodeW1252 := by
      rw [List.filter_eq_self]
      intro a ha
      obtain ⟨l, hl, rfl⟩ := List.mem_map.mp ha
      simpa using hnb l hl
    rw [h1]
    have h2 : ((pre.map decodeW1252).map spardaIRline).length = 10 := by
      simp [h]
    rw [← h2, List.drop_left]

/-- C2, witness. -/
theorem c2_skips_witness :
    postbankRows (List.replicate 8 "x" ++ [postbankDataLine]) =
      ([postbankDataLine].filter (fun l => decide (l ≠ ""))).map postbankParseLine ∧
    spardaRecords (spardaDemoPre ++ [spardaDemoLine]) =
      ((([spardaDemoLine].map decodeW1252).filter (fun l => decide (l ≠ ""))).map
        spardaIRline).map spardaStep :=
  ⟨c2_adapter_skips.1 _ _ (by decide),
   c2_adapter_skips.2.1 _ _ (by decide) (by decide)⟩

/-- C4: errors are row-scoped and iteration never aborts — for every
input stream, the item at every position of the output sequence is
exactly the row-parse result of the data row at that position (for
Sparda, of the deserialization result 10 places later in the
underlying record sequence), so a malformed row yields an error item
exactly at its position and every subsequent valid row still yields
its successfully parsed row. -/
theorem c4_row_scoped_errors :
    (∀ (input : List String) (i : Nat),
      (postbankRows input)[i]? =
        ((postbankDataRows input)[i]?).map postbankParseLine) ∧
    (∀ (input : List (List Nat)) (i : Nat),
      (spardaRecords input)[i]? =
        ((spardaIRresults input)[10 + i]?).map spardaStep) := by
  constructor
  · intro input i
    simp [postbankRows]
  · intro input i
    simp [spardaRecords, List.getElem?_drop]

/-- C5, counterexample: a Postbank row with 17 columns (one missing)
does not, as the claim states, still produce a parsed row — the
flexible csv reader accepts the short record but its deserialization
fails with an end-of-row error. -/
theorem c5_counterexample :
    postbankParseLine c5MissingLine =
      .error "Failed deserializing record: unexpected end of row" := rfl

/-- C5 (amended): flexible mode tolerates only surplus columns — a row
with at least the adapter's named column count deserializes (extra
trailing columns are ignored, and such a row still produces a fully
parsed row when its semantic fields parse), while a row with fewer
columns than the named set yields a row-scoped end-of-row error, for
both the Postbank (18 columns) and Sparda (7 columns) layouts. -/
theorem c5_flexible_columns :
    (∀ fs : List String, fs.length < 18 →
      postbankIRofFields fs = .error "Failed deserializing record: unexpected end of row") ∧
    (∀ fs : List String, 18 ≤ fs.length → ∃ ir, postbankIRofFields fs = .ok ir) ∧
    (∀ fs : List String, fs.length < 7 →
      spardaIRofFields fs = .error "Failed deserializing record: unexpected end of row") ∧
    (∀ fs : List String, 7 ≤ fs.length → ∃ ir, spardaIRofFields fs = .ok ir) ∧
    isOkE (postbankParseLine c5ExtraLine) = true := by
  refine ⟨?_, ?_, ?_, ?_, rfl⟩
  · intro fs h
    rcases fs with _ | ⟨f0, fs⟩
    · rfl
    rcases fs with _ | ⟨f1, fs⟩
    · rfl
    rcases fs with _ | ⟨f2, fs⟩
    · rfl
    rcases fs with _ | ⟨f3, fs⟩
    · rfl
    rcases fs with _ | ⟨f4, fs⟩
    · rfl
    rcases fs with _ | ⟨f5, fs⟩
    · rfl
    rcases fs with _ | ⟨f6, fs⟩
    · rfl
    rcases fs with _ | ⟨f7, fs⟩
    · rfl
    rcases fs with _ | ⟨f8, fs⟩
    · rfl
    rcases fs with _ | ⟨f9, fs⟩
    · rfl
    rcases fs with _ | ⟨f10, fs⟩
    · rfl
    rcases fs with _ | ⟨f11, fs⟩
    · rfl
    rcases fs with _ | ⟨f12, fs⟩
    · rfl
    rcases fs with _ | ⟨f13, fs⟩
    · rfl
    rcases fs with _ | ⟨f14, fs⟩
    · rfl
    rcases fs with _ | ⟨f15, fs⟩
    · rfl
    rcases fs with _ | ⟨f16, fs⟩
    · rfl
    rcases fs with _ | ⟨f17, fs⟩
    · rfl
    simp only [List.length_cons] at h
    omega
  · intro fs h
    rcases fs with _ | ⟨f0, fs⟩
    · simp only [List.length_cons, List.length_nil] at h; omega
    rcases fs with _ | ⟨f1, fs⟩
    · simp only [List.length_cons, List.length_nil] at h; omega
    rcases fs with _ | ⟨f2, fs⟩
    · simp only [List.length_cons, List.length_nil] at h; omega
    rcases fs with _ | ⟨f3, fs⟩
    · simp only [List.length_cons, List.length_nil] at h; omega
    rcases fs with _ | ⟨f4, fs⟩
    · simp only [List.length_cons, List.length_nil] at h; omega
    rcases fs with _ | ⟨f5, fs⟩
    · simp only [List.length_cons, List.length_nil] at h; omega
    rcases fs with _ | ⟨f6, fs⟩
    · simp only [List.length_cons, List.length_nil] at h; omega
    rcases fs with _ | ⟨f7, fs⟩
    · simp only [List.length_cons, List.length_nil] at h; omega
    rcases fs with _ | ⟨f8, fs⟩
    · simp only [List.length_cons, List.length_nil] at h; omega
    rcases fs with _ | ⟨f9, fs⟩
    · simp only [List.length_cons, List.length_nil] at h; omega
    rcases fs with _ | ⟨f10, fs⟩
    · simp only [List.length_cons, List.length_nil] at h; omega
    rcases fs with _ | ⟨f11, fs⟩
    · simp only [List.length_cons, List.length_nil] at h; omega
    rcases fs with _ | ⟨f12, fs⟩
    · simp only [List.length_cons, List.length_nil] at h; omega
    rcases fs with _ | ⟨f13, fs⟩
    · simp only [List.length_cons, List.length_nil] at h; omega
    rcases fs with _ | ⟨f14, fs⟩
    · simp only [List.length_cons, List.length_nil] at h; omega
    rcases fs with _ | ⟨f15, fs⟩
    · simp only [List.length_cons, List.length_nil] at h; omega
    rcases fs with _ | ⟨f16, fs⟩
    · simp only [List.length_cons, List.length_nil] at h; omega
    rcases fs with _ | ⟨f17, fs⟩
    · simp only [List.length_cons, List.length_nil] at h; omega
    exact ⟨_, rfl⟩
  · intro fs h
    rcases fs with _ | ⟨f0, fs⟩
    · rfl
    rcases fs with _ | ⟨f1, fs⟩
    · rfl
    rcases fs with _ | ⟨f2, fs⟩
    · rfl
    rcases fs with _ | ⟨f3, fs⟩
    · rfl
    rcases fs with _ | ⟨f4, fs⟩
    · rfl
    rcases fs with _ | ⟨f5, fs⟩
    · rfl
    rcases fs with _ | ⟨f6, fs⟩
    · rfl
    simp only [List.length_cons] at h
    omega
  · intro fs h
    rcases fs with _ | ⟨f0, fs⟩
    · simp only [List.length_cons, List.length_nil] at h; omega
    rcases fs with _ | ⟨f1, fs⟩
    · simp only [List.length_cons, List.length_nil] at h; omega
    rcases fs with _ | ⟨f2, fs⟩
    · simp only [List.length_cons, List.length_nil] at h; omega
    rcases fs with _ | ⟨f3, fs⟩
    · simp only [List.length_cons, List.length_nil] at h; omega
    rcases fs with _ | ⟨f4, fs⟩
    · simp only [List.length_cons, List.length_nil] at h; omega
    rcases fs with _ | ⟨f5, fs⟩
    · simp only [List.length_cons, List.length_nil] at h; omega
    rcases fs with _ | ⟨f6, fs⟩
    · simp only [List.length_cons, List.length_nil] at h; omega
    exact ⟨_, rfl⟩

/-- C5, witness. -/
theorem c5_flexible_columns_witness :
    postbankIRofFields ["x"] =
      .error "Failed deserializing record: unexpected end of row" ∧
    (∃ ir, postbankIRofFields (splitFields postbankDataLine) = .ok ir) ∧
    spardaIRofFields ["x"] =
      .error "Failed deserializing record: unexpected end of row" ∧
    (∃ ir, spardaIRofFields (splitFields "a;b;c;d;e;f;g") = .ok ir) :=
  ⟨c5_flexible_columns.1 _ (by decide),
   c5_flexible_columns.2.1 _ (by decide),
   c5_flexible_columns.2.2.1 _ (by decide),
   c5_flexible_columns.2.2.2.1 _ (by decide)⟩

/-- C8: an input stream with fewer lines than the claimed skip-head
count (7 for Postbank, 10 for Sparda) yields an empty output sequence
— no rows and no error items. -/
theorem c8_short_input_empty :
    (∀ input : List String, input.length < 7 → postbankRecords input = []) ∧
    (∀ input : List (List Nat), input.length < 10 → spardaRecords input = []) := by
  constructor
  · intro input h
    have h8 : readLines 8 input = [] := by
      rw [readLines_eq_drop]
      exact List.drop_eq_nil_of_le (by omega)
    simp [postbankRecords, postbankRows, postbankDataRows, h8]
  · intro input h
    have h1 : (spardaIRresults input).length ≤ input.length := by
      simp only [spardaIRresults, List.length_map]
      exact le_trans (List.length_filter_le _ _) (by simp)
    have h2 : (spardaIRresults input).drop 10 = [] :=
      List.drop_eq_nil_of_le (by omega)
    simp [spardaRecords, h2]

/-- C8, witness. -/
theorem c8_short_input_empty_witness :
    postbankRecords ["only line"] = [] ∧ spardaRecords [[104]] = [] :=
  ⟨c8_short_input_empty.1 _ (by decide), c8_short_input_empty.2 _ (by decide)⟩

/-- C10, counterexample: a Postbank row whose unused `währung` column
holds text that is no monetary value parses successfully — the
monetary parse of that column falls back to zero instead of erroring,
so no row-level error item is produced. -/
theorem c10_counterexample : isOkE (postbankParseLine c10GarbageLine) = true := rfl

/-- C10 (amended): an unused Postbank column can fail the row only
through the `wert` date column — a row whose `wert` text does not
parse with `%d.%m.%Y` yields a row-level error even though `wert` is
not mapped into the canonical record, while the unused `währung`
column is parsed by a monetary parser that never fails, so it never
causes an error whatever its text. -/
theorem c10_unused_columns :
    (∀ ir : PostbankIR, isOkE (parseDMY ir.wert) = false →
      isOkE (postbankOfIR ir) = false) ∧
    (∀ w : String, isOkE (postbankOfIR (c10IR w)) = true) := by
  constructor
  · intro ir h
    cases hb : parseDMY ir.buchungstag with
    | error e => simp [postbankOfIR, hb, isOkE]
    | ok bt =>
      cases hw : parseDMY ir.wert with
      | error e => simp [postbankOfIR, hb, hw, isOkE]
      | ok w =>
        rw [hw] at h
        simp [isOkE] at h
  · intro w
    rfl

/-- C10, witness. -/
theorem c10_unused_columns_witness :
    isOkE (postbankOfIR c10BadWertIR) = false ∧
    isOkE (postbankOfIR (c10IR "n/a %")) = true :=
  ⟨c10_unused_columns.1 c10BadWertIR rfl, c10_unused_columns.2 "n/a %"⟩

/-- C6, witness. -/
theorem c6_fixed_output_dialect_witness :
    paymentCode c6SampleRecord.payment ≤ 11 ∧
    joinSpace c6SampleRecord.tags = "" :=
  ⟨(c6_fixed_output_dialect c6SampleRecord).2.1,
   (c6_fixed_output_dialect c6SampleRecord).2.2 rfl⟩
